import Mathlib

/-!
Verification development for the tech4commun/Noor agricultural assistant.
The definitions below are a shallow embedding of `assistantV5.py` (the latest
pipeline version): language detection, rule-based intent classification,
dictionary entity extraction, conversation-context update, mandi price lookup,
localization, and the per-turn query processor.  Python strings are Lean
`String`s, Python dicts of strings are association lists, Python `None` is
`Option.none`, and a Python exception escaping a function is `Except.error`.
-/

deriving instance DecidableEq for Except

namespace Noor

/-- Python `str.lower()`.  All cased characters occurring in the program
(keywords, lexicon variants, table fields) are ASCII; Devanagari is uncased,
so ASCII case mapping coincides with Python lowercasing on this data. -/
def pyLower (s : String) : String :=
  String.mk (s.toList.map Char.toLower)

/-- Substring containment on character lists (helper for `pyIn`). -/
def listInfix (needle : List Char) : List Char → Bool
  | [] => needle.isEmpty
  | c :: rest => needle.isPrefixOf (c :: rest) || listInfix needle rest

/-- Python `needle in haystack` for strings: substring containment. -/
def pyIn (needle haystack : String) : Bool :=
  listInfix needle.toList haystack.toList

/-- Python truthiness of an optional string: `None` and `""` are falsy. -/
def optTruthy : Option String → Bool
  | none => false
  | some s => !(s == "")

/-- A Python dict with string keys and string values (a CSV row / record). -/
abbrev Row := List (String × String)

/-- Python `row.get(key, default)`. -/
def dictGetD (r : Row) (k d : String) : String :=
  match r.lookup k with
  | some v => v
  | none => d

/-! ## Language detection (`detect_language`, assistantV5.py lines 331-349) -/

/-- A character of the Devanagari Unicode block (the regex `[ऀ-ॿ]`). -/
def isDevanagari (c : Char) : Bool :=
  0x900 ≤ c.toNat && c.toNat ≤ 0x97F

/-- Common Hindi words in Roman script (source list, lines 338-340). -/
def hindi_roman_words : List String :=
  ["ka", "ki", "ke", "mein", "batao", "kya", "hai", "hain",
   "chahiye", "bhav", "mausam", "salah", "rog", "keet", "samasya",
   "kichad", "pani", "baarish", "garmi", "sardi"]

/-- Accumulator worker for `pyWords` (current partial word is reversed). -/
def pyWordsAux : List Char → List Char → List (List Char)
  | [], acc => if acc.isEmpty then [] else [acc.reverse]
  | c :: rest, acc =>
      if c.isWhitespace then
        if acc.isEmpty then pyWordsAux rest [] else acc.reverse :: pyWordsAux rest []
      else pyWordsAux rest (c :: acc)

/-- Python `str.split()` with no arguments: split on whitespace runs,
discarding empty pieces. -/
def pyWords (l : List Char) : List (List Char) :=
  pyWordsAux l []

/-- `detect_language`: Devanagari script means Hindi; otherwise count
Roman-script Hindi words among the tokens.  The source compares
`hindi_word_count > len(words) * 0.2`; for word counts far below 2^52 the
float comparison agrees exactly with `5 * count > len`, which is the form
used here. -/
def detect_language (text : String) : String :=
  if text.toList.any isDevanagari then "hindi"
  else
    let words := pyWords (pyLower text).toList
    let hindi_word_count :=
      (words.filter (fun w => hindi_roman_words.contains (String.mk w))).length
    if 5 * hindi_word_count > words.length then "hindi" else "english"

/-! ## Rule-based intent classification
(`classify_intent_rule_based`, assistantV5.py lines 281-329).
The ML classifier artifacts (`models/*.joblib`) are not part of the
repository, so `classify_intent` degrades to the rule-based path. -/

def hindi_price_words : List String :=
  ["भाव", "मूल्य", "दर", "कीमत", "लागत", "बाजार", "मंडी"]
def hindi_weather_words : List String :=
  ["मौसम", "बारिश", "तापमान", "वर्षा", "गर्मी", "सर्दी", "आर्द्रता"]
def hindi_advice_words : List String :=
  ["रोग", "कीट", "समस्या", "सलाह", "उपाय", "जानकारी", "उपचार", "बीमारी"]
def hindi_greeting_words : List String :=
  ["नमस्ते", "हैलो", "हाय", "कैसे", "धन्यवाद", "शुक्रिया"]
def hindi_variety_words : List String :=
  ["किस्म", "प्रजाति", "वैरायटी", "बीज"]
def hindi_market_words : List String :=
  ["बाजार", "मंडी", "बिक्री", "खरीद"]

def english_price_words : List String :=
  ["price", "cost", "rate", "bhav", "market", "mandi"]
def english_weather_words : List String :=
  ["weather", "rain", "temperature", "forecast", "humidity", "hot", "cold"]
def english_advice_words : List String :=
  ["disease", "pest", "problem", "advice", "help", "treatment", "solution"]
def english_greeting_words : List String :=
  ["hello", "hi", "hey", "howdy", "thanks", "thank"]
def english_variety_words : List String :=
  ["variety", "type", "seed", "species"]
def english_market_words : List String :=
  ["market", "mandi", "sell", "buy"]

/-- `classify_intent_rule_based`: lowercase the text, then walk the keyword
lists of the active language in the source order, returning on the first list
with a member contained in the text. -/
def classify_intent_rule_based (lang text : String) : String :=
  let text := pyLower text
  if lang == "hindi" then
    if hindi_price_words.any (fun w => pyIn w text) then "get_price"
    else if hindi_weather_words.any (fun w => pyIn w text) then "get_weather"
    else if hindi_advice_words.any (fun w => pyIn w text) then "get_advice"
    else if hindi_greeting_words.any (fun w => pyIn w text) then "greeting"
    else if hindi_variety_words.any (fun w => pyIn w text) then "get_variety_info"
    else if hindi_market_words.any (fun w => pyIn w text) then "get_market_info"
    else "unknown"
  else
    if english_price_words.any (fun w => pyIn w text) then "get_price"
    else if english_weather_words.any (fun w => pyIn w text) then "get_weather"
    else if english_advice_words.any (fun w => pyIn w text) then "get_advice"
    else if english_greeting_words.any (fun w => pyIn w text) then "greeting"
    else if english_variety_words.any (fun w => pyIn w text) then "get_variety_info"
    else if english_market_words.any (fun w => pyIn w text) then "get_market_info"
    else "unknown"

/-- The keyword lists of a language in the priority order stated by the spec:
price, weather, advice, greeting, variety, market. -/
def specIntentTable (lang : String) : List (List String × String) :=
  if lang == "hindi" then
    [(hindi_price_words, "get_price"), (hindi_weather_words, "get_weather"),
     (hindi_advice_words, "get_advice"), (hindi_greeting_words, "greeting"),
     (hindi_variety_words, "get_variety_info"), (hindi_market_words, "get_market_info")]
  else
    [(english_price_words, "get_price"), (english_weather_words, "get_weather"),
     (english_advice_words, "get_advice"), (english_greeting_words, "greeting"),
     (english_variety_words, "get_variety_info"), (english_market_words, "get_market_info")]

/-- First category in an ordered keyword table with a keyword contained in
the text, or "unknown" (the classifier as the spec words it). -/
def firstIntent (text : String) : List (List String × String) → String
  | [] => "unknown"
  | (ws, intent) :: rest =>
      if ws.any (fun w => pyIn w text) then intent else firstIntent text rest

/-- The classifier as described by the spec: ordered first-match over the
active language's keyword table. -/
def classifySpec (lang text : String) : String :=
  firstIntent (pyLower text) (specIntentTable lang)

/-! ## Entity extraction (`extract_entities`, assistantV5.py lines 351-444) -/

/-- Crop lexicon: canonical key to surface variants, in the source dict order. -/
def crop_map : List (String × List String) :=
  [("wheat", ["wheat", "gehun", "गेहूं", "गेहूँ"]),
   ("rice", ["rice", "chawal", "chaval", "चावल", "dhan", "धान", "paddy", "paddy(dhan)(common)"]),
   ("tomato", ["tomato", "tamatar", "टमाटर"]),
   ("potato", ["potato", "aloo", "aalu", "आलू", "आलु"]),
   ("tur", ["tur", "arhar", "red gram", "अरहर", "तूर"]),
   ("gram", ["gram", "chana", "bengal gram", "चना", "चना दाल"]),
   ("urd", ["urd", "black gram", "urad", "उड़द", "काला चना"]),
   ("millet", ["millet", "navane", "foxtail millet", "बाजरा", "मिलेट"]),
   ("jaggery", ["jaggery", "gur", "गुड़", "जैगरी"]),
   ("cucumber", ["cucumber", "kheera", "cucumbar", "खीरा", "ककड़ी"]),
   ("chilli", ["chilli", "mirchi", "green chilli", "मिर्च", "हरी मिर्च"]),
   ("lemon", ["lemon", "nimbu", "नींबू", "लेमन"]),
   ("pumpkin", ["pumpkin", "kaddu", "कद्दू", "पम्पकिन"]),
   ("maize", ["maize", "makka", "मक्का", "corn", "मकई"]),
   ("sugarcane", ["sugarcane", "ganna", "गन्ना"])]

/-- Location lexicon, in the source dict order. -/
def location_map : List (String × List String) :=
  [("andhra pradesh", ["andhra pradesh", "andhra", "आंध्र प्रदेश"]),
   ("chittor", ["chittor", "chittoor", "चित्तूर"]),
   ("krishna", ["krishna", "कृष्णा"]),
   ("kurnool", ["kurnool", "कुर्नूल"]),
   ("nellore", ["nellore", "नेल्लोर"]),
   ("bihar", ["bihar", "बिहार"]),
   ("bhojpur", ["bhojpur", "bhojpur", "भोजपुर"]),
   ("chandigarh", ["chandigarh", "चंडीगढ़"]),
   ("chattisgarh", ["chattisgarh", "chhattisgarh", "छत्तीसगढ़"]),
   ("balodabazar", ["balodabazar", "बालोदाबाजार"]),
   ("bilaspur", ["bilaspur", "बिलासपुर"]),
   ("patna", ["patna", "पटना"]),
   ("delhi", ["delhi", "dilli", "दिल्ली"]),
   ("pune", ["pune", "पुणे"]),
   ("bangalore", ["bangalore", "bengaluru", "बैंगलोर", "बेंगलुरु"]),
   ("mumbai", ["mumbai", "bombay", "मुंबई"]),
   ("kolkata", ["kolkata", "calcutta", "कोलकाता"])]

/-- Variety lexicon, in the source dict order. -/
def variety_map : List (String × List String) :=
  [("hybrid", ["hybrid", "हाइब्रिड"]),
   ("achhu", ["achhu", "आच्छू"]),
   ("bpt", ["b p t", "bpt", "बीपीटी"]),
   ("sona", ["sona", "सोना"]),
   ("local", ["local", "स्थानीय"]),
   ("jyoti", ["jyoti", "ज्योति"])]

/-- The nested `for`/`break` scan of a lexicon: first key (in declared order)
one of whose variants is contained in the lowercased text. -/
def firstMatch (table : List (String × List String)) (text : String) : Option String :=
  (table.find? (fun e => e.2.any (fun v => pyIn v text))).map (fun e => e.1)

/-- One entry of `conversation_history`. -/
structure HistEntry where
  timestamp : String
  user_text : String
  intent : String
  response : String
  language : String
deriving DecidableEq

/-- The mutable `conversation_context` record of the assistant. -/
structure Context where
  last_crop : Option String
  last_location : Option String
  last_intent : Option String
  conversation_history : List HistEntry
deriving DecidableEq

/-- `extract_entities`: lexicon scan for crop, location and variety, then the
context fallback for location and crop (Python truthiness: `None` and the
empty string do not trigger or supply a fallback).  Variety has no fallback. -/
def extract_entities (ctx : Context) (text : String) :
    Option String × Option String × Option String :=
  let text := pyLower text
  let found_crop := firstMatch crop_map text
  let found_location := firstMatch location_map text
  let found_variety := firstMatch variety_map text
  let found_location :=
    if !(optTruthy found_location) && optTruthy ctx.last_location then
      ctx.last_location
    else found_location
  let found_crop :=
    if !(optTruthy found_crop) && optTruthy ctx.last_crop then
      ctx.last_crop
    else found_crop
  (found_crop, found_location, found_variety)

/-! ## Conversation context update
(`update_conversation_context`, assistantV5.py lines 446-471).
`datetime.now().isoformat()` is an external input, passed in as `timestamp`;
the periodic save to disk is I/O and outside the embedding. -/

def update_conversation_context (ctx : Context) (intent : String)
    (crop location : Option String) (user_text response lang timestamp : String) :
    Context :=
  let hist := ctx.conversation_history ++
    [{ timestamp := timestamp, user_text := user_text, intent := intent,
       response := response, language := lang }]
  let hist := if hist.length > 100 then hist.drop (hist.length - 100) else hist
  { last_crop := if optTruthy crop then crop else ctx.last_crop
    last_location := if optTruthy location then location else ctx.last_location
    last_intent := some intent
    conversation_history := hist }

/-! ## Mandi price lookup
(`get_crop_price_from_mandi`, assistantV5.py lines 473-506) -/

/-- `crop_name_mapping` (assistantV5.py lines 59-77). -/
def crop_name_mapping : List (String × String) :=
  [("wheat", "Wheat"), ("rice", "Rice"), ("tomato", "Tomato"),
   ("potato", "Potato"), ("paddy", "Paddy(Dhan)(Common)"),
   ("tur", "Arhar (Tur/Red Gram)(Whole)"), ("gram", "Bengal Gram(Gram)(Whole)"),
   ("urd", "Black Gram (Urd Beans)(Whole)"), ("millet", "Foxtail Millet(Navane)"),
   ("jaggery", "Gur(Jaggery)"), ("wood", "Wood"), ("cucumber", "Cucumbar(Kheera)"),
   ("chilli", "Green Chilli"), ("lemon", "Lemon"), ("pumpkin", "Pumpkin"),
   ("maize", "Maize"), ("sugarcane", "Sugarcane")]

/-- Split a character list at every occurrence of a separator (the pieces of
Python string splitting with an explicit separator; no piece is dropped). -/
def splitOnChar (sep : Char) : List Char → List (List Char)
  | [] => [[]]
  | c :: rest =>
    if c == sep then [] :: splitOnChar sep rest
    else
      match splitOnChar sep rest with
      | [] => [[c]]
      | w :: ws => (c :: w) :: ws

/-- Whether a character list is entirely decimal digits and nonempty. -/
def isDigits (s : List Char) : Bool :=
  !s.isEmpty && s.all Char.isDigit

/-- The number denoted by a decimal digit list. -/
def digitsToNat (l : List Char) : Nat :=
  l.foldl (fun acc c => acc * 10 + (c.toNat - 48)) 0

/-- Days in a month of the proleptic Gregorian calendar, as `datetime` uses. -/
def daysInMonth (y m : Nat) : Nat :=
  if m == 2 then
    if (y % 4 == 0 && y % 100 != 0) || y % 400 == 0 then 29 else 28
  else if m == 4 || m == 6 || m == 9 || m == 11 then 30 else 31

/-- `datetime.strptime(s, "%d-%m-%Y")`: `none` models the `ValueError` a
malformed date raises.  CPython matches `%d` and `%m` against one or two
digits, matches `%Y` against exactly four digits, and the `datetime`
constructor then enforces month, day-of-month and minimum-year bounds.
Returns (year, month, day). -/
def parseDMY (s : String) : Option (Nat × Nat × Nat) :=
  match splitOnChar '-' s.toList with
  | [d, m, y] =>
    if isDigits d && d.length ≤ 2 && isDigits m && m.length ≤ 2 &&
       isDigits y && y.length == 4 then
      let dn := digitsToNat d
      let mn := digitsToNat m
      let yn := digitsToNat y
      if 1 ≤ yn && 1 ≤ mn && mn ≤ 12 && 1 ≤ dn && dn ≤ daysInMonth yn mn then
        some (yn, mn, dn)
      else none
    else none
  | _ => none

/-- Whether a record's `Arrival Date` field parses as `%d-%m-%Y`. -/
def hasDate (r : Row) : Bool :=
  (parseDMY (dictGetD r "Arrival Date" "")).isSome

/-- Comparison key of a record's date: dates compare as `datetime` values,
i.e. lexicographically on (year, month, day). -/
def dateVal (r : Row) : Nat :=
  match parseDMY (dictGetD r "Arrival Date" "") with
  | some (y, m, d) => y * 10000 + m * 100 + d
  | none => 0

/-- The filtering phase of `get_crop_price_from_mandi`: map the crop name to
a commodity name, filter by commodity, then (if truthy) by location against
District / Market / State, then (if truthy) by variety. -/
def mandiMatching (priceData : List Row) (crop : String)
    (location variety : Option String) : List Row :=
  let commodity_name := (crop_name_mapping.lookup (pyLower crop)).getD crop
  let m := priceData.filter
    (fun r => pyLower (dictGetD r "Commodity" "") == pyLower commodity_name)
  let m :=
    if optTruthy location then
      let loc := pyLower (location.getD "")
      m.filter (fun r => pyLower (dictGetD r "District" "") == loc ||
                         pyLower (dictGetD r "Market" "") == loc ||
                         pyLower (dictGetD r "State" "") == loc)
    else m
  if optTruthy variety then
    let v := pyLower (variety.getD "")
    m.filter (fun r => pyLower (dictGetD r "Variety" "") == v)
  else m

/-- `get_crop_price_from_mandi`: filter, then sort by parsed arrival date
descending (Python computes all sort keys before reordering, so a single
unparsable date raises `ValueError`, the bare `except` swallows it, and the
list keeps its table order) and return the first record; an empty filter
result returns `None`. -/
def get_crop_price_from_mandi (priceData : List Row) (crop : String)
    (location variety : Option String) : Option Row :=
  let matching := mandiMatching priceData crop location variety
  if matching.isEmpty then none
  else
    let sorted :=
      if matching.all hasDate then
        matching.mergeSort (fun a b => decide (dateVal b ≤ dateVal a))
      else matching
    sorted.head?

/-! ## Python `str.format` with keyword arguments
(used by `get_localized_text`, assistantV5.py lines 227-239).
A malformed template (an unmatched brace) raises `ValueError`; a placeholder
absent from the keyword arguments raises `KeyError`.  The source catches only
`KeyError`.  The model parses the whole template first, so a template that is
both malformed and missing a placeholder reports `ValueError` where Python
reports whichever problem comes first; no template in this repository is
malformed, so the distinction is unreachable here. -/

/-- A Python exception escaping a modelled function. -/
inductive PyErr
  | attributeError
  | keyError
  | valueError
deriving DecidableEq

/-- A parsed template piece: a literal character or a `\x7bname\x7d` field. -/
inductive Tok
  | lit (c : Char)
  | field (name : String)
deriving DecidableEq

/-- Template scanner.  The second argument is `none` in literal mode and
`some acc` inside a field (the name collected so far, reversed).  In literal
mode `\x7b\x7b` and `\x7d\x7d` are literal braces, `\x7b` opens a field and a
lone `\x7d` is malformed; in field mode `\x7d` closes the field and
end-of-input is malformed. -/
def tmplParseAux : List Char → Option (List Char) → Option (List Tok)
  | [], none => some []
  | [], some _ => none
  | c :: rest, some acc =>
    if c == '}' then
      (tmplParseAux rest none).map
        (fun ts => Tok.field (String.mk acc.reverse) :: ts)
    else tmplParseAux rest (some (c :: acc))
  | '{' :: '{' :: rest2, none =>
    (tmplParseAux rest2 none).map (fun ts => Tok.lit '{' :: ts)
  | '{' :: rest, none => tmplParseAux rest (some [])
  | '}' :: '}' :: rest2, none =>
    (tmplParseAux rest2 none).map (fun ts => Tok.lit '}' :: ts)
  | '}' :: _, none => none
  | c :: rest, none => (tmplParseAux rest none).map (fun ts => Tok.lit c :: ts)

/-- Parse a format template; `none` models the `ValueError` an unmatched
brace raises. -/
def tmplParse (l : List Char) : Option (List Tok) :=
  tmplParseAux l none

/-- Substitute field values, `none` on a missing keyword (`KeyError`). -/
def substFields (kwargs : List (String × String)) : List Tok → Option (List Char)
  | [] => some []
  | Tok.lit c :: rest => (substFields kwargs rest).map (fun t => c :: t)
  | Tok.field n :: rest =>
    match kwargs.lookup n with
    | some v => (substFields kwargs rest).map (fun t => v.toList ++ t)
    | none => none

/-- `template.format(**kwargs)`. -/
def pyFormat (t : String) (kwargs : List (String × String)) : Except PyErr String :=
  match tmplParse t.toList with
  | none => Except.error PyErr.valueError
  | some toks =>
    match substFields kwargs toks with
    | some cs => Except.ok (String.mk cs)
    | none => Except.error PyErr.keyError

/-- A template is well formed when it parses (so `format` never raises
`ValueError` on it, whatever the keyword arguments are). -/
def tmplOk (t : String) : Bool :=
  (tmplParse t.toList).isSome

/-! ## Default data tables (`create_default_data_files`, assistantV5.py
lines 96-177).  The repository ships no `data/` directory, so at first start
these are exactly the tables the assistant runs on.  `load_csv_data` keys
each row dict by its first column value lowercased; `load_mandi_price_data`
yields a plain list of row dicts. -/

/-- One mandi price record, with the CSV header of the default data. -/
def mandiRow (state district market commodity variety grade date
    minP maxP modalP : String) : Row :=
  [("State", state), ("District", district), ("Market", market),
   ("Commodity", commodity), ("Variety", variety), ("Grade", grade),
   ("Arrival Date", date), ("Min Price", minP), ("Max Price", maxP),
   ("Modal Price", modalP)]

def default_mandi_data : List Row :=
  [mandiRow "Andhra Pradesh" "Chittor" "Punganur" "Tomato" "Hybrid" "FAQ"
     "10-09-2025" "1000" "1400" "1200",
   mandiRow "Andhra Pradesh" "Chittor" "Vepanjari" "Gur(Jaggery)" "Achhu" "FAQ"
     "10-09-2025" "2500" "3000" "2700",
   mandiRow "Andhra Pradesh" "Krishna" "Divi" "Paddy(Dhan)(Common)" "B P T" "FAQ"
     "10-09-2025" "2300" "2400" "2350",
   mandiRow "Bihar" "Bhojpur" "Aarah" "Potato" "Jyoti" "FAQ"
     "10-09-2025" "2000" "2200" "2100",
   mandiRow "Chandigarh" "Chandigarh" "Chandigarh(Grain/Fruit)" "Cucumbar(Kheera)"
     "Other" "FAQ" "10-09-2025" "2000" "4500" "3300",
   mandiRow "Chandigarh" "Chandigarh" "Chandigarh(Grain/Fruit)" "Green Chilli"
     "Other" "FAQ" "10-09-2025" "2000" "3500" "2800"]

/-- One weather row keyed by its lowercased location. -/
def weatherRow (location condition temperature humidity rainfall forecast :
    String) : String × Row :=
  (location, [("location", location), ("condition", condition),
    ("temperature", temperature), ("humidity", humidity),
    ("rainfall", rainfall), ("forecast", forecast)])

def default_weather_data : List (String × Row) :=
  [weatherRow "patna" "Sunny" "32" "65" "0" "Partly cloudy tomorrow",
   weatherRow "delhi" "Partly cloudy" "35" "60" "0" "Light rain expected",
   weatherRow "pune" "Cloudy" "28" "75" "10" "Heavy rain warning",
   weatherRow "bangalore" "Rainy" "26" "85" "25" "Continuing rain",
   weatherRow "chittor" "Hot" "38" "45" "0" "Clear skies",
   weatherRow "krishna" "Humid" "34" "80" "5" "Possible showers"]

/-- One crop advice row keyed by its lowercased crop. -/
def adviceRow (crop season soil adviceEn adviceHi : String) : String × Row :=
  (crop, [("crop", crop), ("season", season), ("soil_type", soil),
    ("advice_english", adviceEn), ("advice_hindi", adviceHi)])

def default_advice_data : List (String × Row) :=
  [adviceRow "wheat" "winter" "loamy"
     "Ensure proper irrigation and use nitrogen-based fertilizers during growth."
     "वृद्धि के दौरान उचित सिंचाई सुनिश्चित करें और नाइट्रोजन आधारित उर्वरकों का उपयोग करें।",
   adviceRow "rice" "monsoon" "clayey"
     "Maintain water level at 2-3 inches and control weeds regularly."
     "पानी का स्तर 2-3 इंच पर बनाए रखें और नियमित रूप से खरपतवार नियंत्रित करें।",
   adviceRow "tomato" "summer" "well-drained"
     "Ensure proper drainage and rotate crops to prevent diseases."
     "रोगों को रोकने के लिए उचित जल निकासी सुनिश्चित करें और फसलों को घुमाएं।",
   adviceRow "potato" "winter" "sandy loam"
     "Plant in well-drained soil and maintain consistent moisture."
     "अच्छी तरह से सूखा मिट्टी में लगाएं और लगातार नमी बनाए रखें।"]

/-- One localization row keyed by its message key. -/
def locRow (key english hindi : String) : String × Row :=
  (key, [("key", key), ("english", english), ("hindi", hindi)])

def default_localization : List (String × Row) :=
  [locRow "greeting" "Hello! How can I help you today?"
     "नमस्ते! मैं आपकी कैसे मदद कर सकता हूं?",
   locRow "price_not_found"
     "Sorry, I don\x27t have price information for {crop} in {location}"
     "क्षमा करें, मेरे पास {location} में {crop} की कीमत की जानकारी नहीं है",
   locRow "weather_not_found" "Weather information not available for {location}"
     "{location} के लिए मौसम की जानकारी उपलब्ध नहीं है",
   locRow "advice_not_found" "No specific advice available for {crop}"
     "{crop} के लिए कोई विशिष्ट सलाह उपलब्ध नहीं है",
   locRow "missing_crop" "Please specify a crop" "कृपया एक फसल निर्दिष्ट करें",
   locRow "missing_location" "Please specify a location" "कृपया एक स्थान निर्दिष्ट करें",
   locRow "goodbye" "Goodbye! Have a great day!" "अलविदा! आपका दिन शुभ हो!",
   locRow "error" "Sorry, I encountered an error. Please try again."
     "क्षमा करें, एक त्रुटि हुई। कृपया पुनः प्रयास करें।",
   locRow "listening" "Listening..." "सुन रहा हूँ...",
   locRow "not_understood" "Sorry, I didn\x27t understand that."
     "क्षमा करें, मैं समझा नहीं।",
   locRow "service_unavailable" "Sorry, speech service is unavailable."
     "क्षमा करें, भाषण सेवा उपलब्ध नहीं है।",
   locRow "no_speech" "No speech detected." "कोई भाषण नहीं मिला।",
   locRow "help_prompt"
     "I can help with crop prices, weather information, and agricultural advice. What do you need?"
     "मैं फसल की कीमतों, मौसम की जानकारी और कृषि सलाह में मदद कर सकता हूं। आपको क्या चाहिए?"]

/-- One crop variety row keyed by its lowercased crop. -/
def varietyRow (crop variety characteristics yield_ duration : String) :
    String × Row :=
  (crop, [("crop", crop), ("variety", variety),
    ("characteristics", characteristics), ("yield", yield_),
    ("duration", duration)])

def default_varieties_data : List (String × Row) :=
  [varietyRow "wheat" "HD 3086" "High yield, disease resistant" "5.5 t/ha" "120 days",
   varietyRow "rice" "Pusa Basmati" "Aromatic, long grain" "4.5 t/ha" "135 days",
   varietyRow "tomato" "Pusa Ruby" "High yield, firm fruit" "60 t/ha" "90 days",
   varietyRow "potato" "Kufri Jyoti" "High yield, disease resistant" "25 t/ha" "100 days"]

/-- One market info row keyed by its lowercased location. -/
def marketRow (location marketName contact hours : String) : String × Row :=
  (location, [("location", location), ("market_name", marketName),
    ("contact", contact), ("business_hours", hours)])

def default_market_data : List (String × Row) :=
  [marketRow "patna" "Patna Grain Market" "0612-XXXXXX" "6 AM to 8 PM",
   marketRow "delhi" "Azadpur Mandi" "011-XXXXXX" "24 hours",
   marketRow "pune" "Market Yard" "020-XXXXXX" "5 AM to 9 PM",
   marketRow "bangalore" "K.R. Market" "080-XXXXXX" "6 AM to 10 PM",
   marketRow "chittor" "Chittor Mandi" "08572-XXXXX" "5 AM to 7 PM",
   marketRow "krishna" "Krishna Market" "0866-XXXXXX" "6 AM to 8 PM"]

/-! ## Assistant state and response generation -/

/-- The assistant's per-session state: the detected language, the mutable
conversation context, and the data tables loaded at startup. -/
structure Assistant where
  current_language : String
  conversation_context : Context
  price_data : List Row
  weather_data : List (String × Row)
  advice_data : List (String × Row)
  localization_data : List (String × Row)
  crop_varieties : List (String × Row)
  market_info : List (String × Row)
deriving DecidableEq

/-- The template `get_localized_text` selects before formatting: the entry's
value for the current language, else its English value, else the empty
string; `none` when the key is not in the table at all. -/
def locTemplate (st : Assistant) (key : String) : Option String :=
  (st.localization_data.lookup key).map
    (fun row => dictGetD row st.current_language (dictGetD row "english" ""))

/-- `get_localized_text` (assistantV5.py lines 227-239): missing key returns
the bare key; with keyword arguments the template is formatted, a `KeyError`
is caught and the unformatted template returned, while a `ValueError` from a
malformed template would escape (the bare `except KeyError` does not catch
it). -/
def get_localized_text (st : Assistant) (key : String)
    (kwargs : List (String × String)) : Except PyErr String :=
  match locTemplate st key with
  | some text =>
    if kwargs.isEmpty then Except.ok text
    else
      match pyFormat text kwargs with
      | Except.ok s => Except.ok s
      | Except.error PyErr.keyError => Except.ok text
      | Except.error e => Except.error e
  | none => Except.ok key

/-- `get_crop_price` (assistantV5.py lines 508-546).  When the mandi lookup
finds a (truthy, i.e. nonempty) record the price response is formatted from
it.  Otherwise the source falls into a legacy fallback that iterates
`self.price_data.items()`; in V5 `price_data` is a *list* (built by
`load_mandi_price_data`), which has no `.items()`, so that branch raises
`AttributeError` unconditionally. -/
def get_crop_price (st : Assistant) (crop location : String)
    (variety : Option String) : Except PyErr String :=
  match get_crop_price_from_mandi st.price_data crop (some location) variety with
  | some price_record =>
    if price_record.isEmpty then Except.error PyErr.attributeError
    else
      let market := dictGetD price_record "Market" "Unknown market"
      let variety := dictGetD price_record "Variety" "Unknown variety"
      let min_price := dictGetD price_record "Min Price" "N/A"
      let max_price := dictGetD price_record "Max Price" "N/A"
      let modal_price := dictGetD price_record "Modal Price" "N/A"
      let date := dictGetD price_record "Arrival Date" "Unknown date"
      if st.current_language == "hindi" then
        Except.ok (market ++ " में " ++ crop ++ " (" ++ variety ++ ") की कीमत: न्यूनतम ₹"
          ++ min_price ++ ", अधिकतम ₹" ++ max_price ++ ", मोडल ₹" ++ modal_price
          ++ " प्रति क्विंटल (तारीख: " ++ date ++ ")")
      else
        Except.ok ("Price of " ++ crop ++ " (" ++ variety ++ ") in " ++ market
          ++ ": Min ₹" ++ min_price ++ ", Max ₹" ++ max_price ++ ", Modal ₹"
          ++ modal_price ++ " per quintal (date: " ++ date ++ ")")
  | none => Except.error PyErr.attributeError

/-- `get_weather_info` (assistantV5.py lines 548-569); "Weater" is the
source's own typo. -/
def get_weather_info (st : Assistant) (location : String) : Except PyErr String :=
  let location_key := pyLower location
  match st.weather_data.lookup location_key with
  | some data =>
    let condition := dictGetD data "condition" "N/A"
    let temperature := dictGetD data "temperature" "N/A"
    let humidity := dictGetD data "humidity" "N/A"
    let rainfall := dictGetD data "rainfall" "N/A"
    let forecast := dictGetD data "forecast" "N/A"
    if st.current_language == "hindi" then
      Except.ok (location ++ " में मौसम: " ++ condition ++ ", तापमान: " ++ temperature
        ++ "°C, नमी: " ++ humidity ++ "%, वर्षा: " ++ rainfall
        ++ "mm. पूर्वानुमान: " ++ forecast)
    else
      Except.ok ("Weater in " ++ location ++ ": " ++ condition ++ ", Temperature: "
        ++ temperature ++ "°C, Humidity: " ++ humidity ++ "%, Rainfall: "
        ++ rainfall ++ "mm. Forecast: " ++ forecast)
  | none => get_localized_text st "weather_not_found" [("location", location)]

/-- `get_agriculture_advice` (assistantV5.py lines 571-598), as called from
`process_query`: no season argument, so the season branch is skipped and the
first row matching the crop supplies the general advice. -/
def get_agriculture_advice (st : Assistant) (crop : String) : Except PyErr String :=
  let crop_key := pyLower crop
  match st.advice_data.find?
      (fun kv => pyLower (dictGetD kv.2 "crop" "") == crop_key) with
  | some kv =>
    let advice := dictGetD kv.2 ("advice_" ++ st.current_language)
      (dictGetD kv.2 "advice_english" "No advice available")
    if st.current_language == "hindi" then
      Except.ok (crop ++ " के लिए सलाह: " ++ advice)
    else
      Except.ok ("Advice for " ++ crop ++ ": " ++ advice)
  | none => get_localized_text st "advice_not_found" [("crop", crop)]

/-- One line of the variety listing. -/
def varietyLine (lang : String) (v : Row) : String :=
  let name := dictGetD v "variety" "N/A"
  let ch := dictGetD v "characteristics" "N/A"
  let yld := dictGetD v "yield" "N/A"
  let dur := dictGetD v "duration" "N/A"
  if lang == "hindi" then
    "- " ++ name ++ ": " ++ ch ++ ", उपज: " ++ yld ++ ", अवधि: " ++ dur ++ "\n"
  else
    "- " ++ name ++ ": " ++ ch ++ ", Yield: " ++ yld ++ ", Duration: " ++ dur ++ "\n"

/-- `get_crop_variety_info` (assistantV5.py lines 600-625). -/
def get_crop_variety_info (st : Assistant) (crop : String) : Except PyErr String :=
  let crop_key := pyLower crop
  let varieties := ((st.crop_varieties.filter
    (fun kv => pyLower (dictGetD kv.2 "crop" "") == crop_key)).map (fun kv => kv.2))
  if !varieties.isEmpty then
    let header :=
      if st.current_language == "hindi" then crop ++ " की प्रमुख किस्में:\n"
      else "Major varieties of " ++ crop ++ ":\n"
    Except.ok (header ++ String.join (varieties.map (varietyLine st.current_language)))
  else
    if st.current_language == "hindi" then
      Except.ok ("क्षमा करें, मेरे पास " ++ crop ++ " की किस्मों की जानकारी नहीं है")
    else
      Except.ok ("Sorry, I don\x27t have information about varieties of " ++ crop)

/-- One line of the market listing. -/
def marketLine (lang : String) (m : Row) : String :=
  let name := dictGetD m "market_name" "N/A"
  let contact := dictGetD m "contact" "N/A"
  let hours := dictGetD m "business_hours" "N/A"
  if lang == "hindi" then
    "- " ++ name ++ ": संपर्क: " ++ contact ++ ", व्यापार के घंटे: " ++ hours ++ "\n"
  else
    "- " ++ name ++ ": Contact: " ++ contact ++ ", Business hours: " ++ hours ++ "\n"

/-- `get_market_info` (assistantV5.py lines 627-652). -/
def get_market_info (st : Assistant) (location : String) : Except PyErr String :=
  let location_key := pyLower location
  let markets := ((st.market_info.filter
    (fun kv => pyLower (dictGetD kv.2 "location" "") == location_key)).map
      (fun kv => kv.2))
  if !markets.isEmpty then
    let header :=
      if st.current_language == "hindi" then location ++ " में प्रमुख कृषि बाजार:\n"
      else "Major agricultural markets in " ++ location ++ ":\n"
    Except.ok (header ++ String.join (markets.map (marketLine st.current_language)))
  else
    if st.current_language == "hindi" then
      Except.ok ("क्षमा करें, मेरे पास " ++ location ++ " में बाजारों की जानकारी नहीं है")
    else
      Except.ok ("Sorry, I don\x27t have information about markets in " ++ location)

/-- The exit phrase list of `process_query` (assistantV5.py line 693). -/
def exit_words : List String := ["exit", "quit", "stop", "बंद", "रुको"]

/-- The catch-all reply for an unknown intent (assistantV5.py lines 740-744). -/
def unknownReply (lang : String) : String :=
  if lang == "hindi" then
    "क्षमा करें, मैं केवल कीमतों, मौसम, कृषि सलाह, किस्मों और बाजार जानकारी के बारे में मदद कर सकता हूं"
  else
    "I can help with prices, weather, agricultural advice, variety information, and market details. Please try again."

/-- The intent dispatch of `process_query` (assistantV5.py lines 704-744):
the crop/location preconditions per intent, the localized missing-entity
messages, and the catch-all for unknown intents.  Truthiness follows Python:
a `None` or empty entity fails its precondition. -/
def turnResponse (st : Assistant) (intent : String)
    (crop location variety : Option String) : Except PyErr String :=
  if intent == "get_price" then
    if optTruthy crop && optTruthy location then
      get_crop_price st (crop.getD "") (location.getD "") variety
    else if !(optTruthy crop) then get_localized_text st "missing_crop" []
    else get_localized_text st "missing_location" []
  else if intent == "get_weather" then
    if optTruthy location then get_weather_info st (location.getD "")
    else get_localized_text st "missing_location" []
  else if intent == "get_advice" then
    if optTruthy crop then get_agriculture_advice st (crop.getD "")
    else get_localized_text st "missing_crop" []
  else if intent == "get_variety_info" then
    if optTruthy crop then get_crop_variety_info st (crop.getD "")
    else get_localized_text st "missing_crop" []
  else if intent == "get_market_info" then
    if optTruthy location then get_market_info st (location.getD "")
    else get_localized_text st "missing_location" []
  else if intent == "greeting" then get_localized_text st "greeting" []
  else Except.ok (unknownReply st.current_language)

/-- The non-exit body of `process_query`: classify (the ML artifacts are
absent, so classification is rule-based), extract entities, dispatch on the
intent with the crop/location preconditions, then update the conversation
context — unless the response raised, in which case the update is never
reached and the exception propagates to the caller. -/
def normal_turn (st : Assistant) (text timestamp : String) :
    Except PyErr String × Context :=
  let intent := classify_intent_rule_based st.current_language text
  let e := extract_entities st.conversation_context text
  match turnResponse st intent e.1 e.2.1 e.2.2 with
  | Except.ok r =>
    (Except.ok r,
     update_conversation_context st.conversation_context intent e.1 e.2.1
       text r st.current_language timestamp)
  | Except.error err => (Except.error err, st.conversation_context)

/-- `process_query` (assistantV5.py lines 691-749): an utterance whose
lowercased text is exactly one of the exit words short-circuits to the
special "exit" response with the context untouched; anything else runs the
normal turn.  The returned context is the assistant's context after the
turn. -/
def process_query (st : Assistant) (text timestamp : String) :
    Except PyErr String × Context :=
  if exit_words.contains (pyLower text) then
    (Except.ok "exit", st.conversation_context)
  else normal_turn st text timestamp

/-- One typed non-exit turn of the `run` loop: detect the language from the
text, then process the query (assistantV5.py lines 782-789). -/
def process_turn (st : Assistant) (text timestamp : String) :
    Except PyErr String × Assistant :=
  let st := { st with current_language := detect_language text }
  let r := process_query st text timestamp
  (r.1, { st with conversation_context := r.2 })

/-- The assistant's session-start state: empty context, English, and the
default tables synthesized by `create_default_data_files`.  The repository
ships no `data/` directory; the constructor loads tables before creating the
default files, so these tables are the loaded state of every start after the
defaults have been written to disk. -/
def initial_assistant : Assistant :=
  { current_language := "english"
    conversation_context :=
      { last_crop := none, last_location := none, last_intent := none,
        conversation_history := [] }
    price_data := default_mandi_data
    weather_data := default_weather_data
    advice_data := default_advice_data
    localization_data := default_localization
    crop_varieties := default_varieties_data
    market_info := default_market_data }

/-! ## Helper lemmas -/

/-- A successful association-list lookup found an actual entry. -/
theorem lookup_mem {β : Type} {k : String} {v : β} :
    ∀ l : List (String × β), l.lookup k = some v → (k, v) ∈ l := by
  intro l
  induction l with
  | nil => intro h; simp [List.lookup] at h
  | cons p rest ih =>
    obtain ⟨a, b⟩ := p
    intro h
    rw [List.lookup] at h
    rcases hk : (k == a) with _ | _
    · rw [hk] at h
      exact List.mem_cons_of_mem _ (ih h)
    · rw [hk] at h
      have hka : k = a := by
        have := hk
        simp at this
        exact this
      have hbv : b = v := by
        simpa using h
      subst hka
      subst hbv
      exact List.mem_cons_self _ _

/-- A `get` with default either returns the default or some stored value. -/
theorem dictGetD_mem_or_default (r : Row) (k d : String) :
    dictGetD r k d = d ∨ ∃ p, p ∈ r ∧ dictGetD r k d = p.2 := by
  unfold dictGetD
  rcases h : r.lookup k with _ | v
  · left; rfl
  · right
    exact ⟨(k, v), lookup_mem r h, rfl⟩

/-- If the whitespace splitter finds no word, every character (and whatever
is in the accumulator) is whitespace. -/
theorem pyWordsAux_eq_nil :
    ∀ (l acc : List Char), pyWordsAux l acc = [] →
      acc = [] ∧ ∀ c ∈ l, c.isWhitespace = true := by
  intro l
  induction l with
  | nil =>
    intro acc h
    rw [pyWordsAux] at h
    constructor
    · by_cases ha : acc.isEmpty
      · exact List.isEmpty_iff.mp ha
      · simp [ha] at h
    · intro c hc; simp at hc
  | cons c rest ih =>
    intro acc h
    rw [pyWordsAux] at h
    by_cases hw : c.isWhitespace
    · rw [if_pos hw] at h
      by_cases ha : acc.isEmpty
      · rw [if_pos ha] at h
        refine ⟨List.isEmpty_iff.mp ha, ?_⟩
        intro x hx
        rcases List.mem_cons.mp hx with rfl | hx
        · exact hw
        · exact (ih [] h).2 x hx
      · rw [if_neg ha] at h
        simp at h
    · rw [if_neg hw] at h
      have := (ih (c :: acc) h).1
      simp at this

/-- A whitespace character is one of the four whitespace code points. -/
theorem isWhitespace_char_cases (c : Char) (h : c.isWhitespace = true) :
    c = ' ' ∨ c = '\t' ∨ c = '\x0d' ∨ c = '\n' := by
  simpa [Char.isWhitespace, or_assoc] using h

/-- Valid code points round-trip through `Char.ofNat`. -/
theorem char_toNat_ofNat (n : Nat) (h : n.isValidChar) :
    (Char.ofNat n).toNat = n := by
  unfold Char.ofNat
  rw [dif_pos h]
  unfold Char.ofNatAux Char.toNat UInt32.toNat
  simp

/-- ASCII lowercasing maps no character into the whitespace set. -/
theorem isWhitespace_toLower (c : Char) :
    (Char.toLower c).isWhitespace = true → c.isWhitespace = true := by
  intro h
  by_cases hc : c.toNat ≥ 65 ∧ c.toNat ≤ 90
  · exfalso
    have hl : Char.toLower c = Char.ofNat (c.toNat + 32) := by
      unfold Char.toLower
      simp [hc]
    have hv : (Char.ofNat (c.toNat + 32)).toNat = c.toNat + 32 := by
      apply char_toNat_ofNat
      unfold Nat.isValidChar
      left
      omega
    rw [hl] at h
    rcases isWhitespace_char_cases _ h with h1 | h1 | h1 | h1 <;>
      (rw [h1] at hv; simp at hv; try omega)
  · have hl : Char.toLower c = c := by
      unfold Char.toLower
      simp [hc]
    rwa [hl] at h

/-- Whitespace characters are not Devanagari. -/
theorem isDevanagari_of_whitespace (c : Char) :
    c.isWhitespace = true → isDevanagari c = false := by
  intro h
  rcases isWhitespace_char_cases _ h with h1 | h1 | h1 | h1 <;>
    (subst h1; decide)

/-- The descending-by-date comparison used by the price lookup. -/
def dateDesc (a b : Row) : Bool := decide (dateVal b ≤ dateVal a)

/-- The head of the descending stable sort is a record of maximal date. -/
theorem mergeSort_head_max (l : List Row) (hne : l ≠ []) :
    ∃ r₀, (l.mergeSort dateDesc).head? = some r₀ ∧ r₀ ∈ l ∧
      ∀ r ∈ l, dateVal r ≤ dateVal r₀ := by
  have htrans : ∀ a b c : Row, dateDesc a b = true → dateDesc b c = true →
      dateDesc a c = true := by
    intro a b c hab hbc
    simp only [dateDesc, decide_eq_true_eq] at *
    omega
  have htotal : ∀ a b : Row, (dateDesc a b || dateDesc b a) = true := by
    intro a b
    simp only [dateDesc, Bool.or_eq_true, decide_eq_true_eq]
    omega
  have hperm := List.mergeSort_perm l dateDesc
  have hsorted := List.sorted_mergeSort htrans htotal l
  rcases hs : l.mergeSort dateDesc with _ | ⟨r₀, rest⟩
  · exfalso
    apply hne
    have := hperm.length_eq
    rw [hs] at this
    exact List.length_eq_zero.mp this.symm
  · refine ⟨r₀, rfl, ?_, ?_⟩
    · have : r₀ ∈ l.mergeSort dateDesc := by rw [hs]; exact List.mem_cons_self _ _
      exact hperm.mem_iff.mp this
    · intro r hr
      have hrm : r ∈ l.mergeSort dateDesc := hperm.mem_iff.mpr hr
      rw [hs] at hrm
      rcases List.mem_cons.mp hrm with rfl | hrm
      · exact Nat.le_refl _
      · rw [hs] at hsorted
        have := (List.pairwise_cons.mp hsorted).1 r hrm
        simpa [dateDesc] using this

/-- A well-formed template never makes `format` raise `ValueError`. -/
theorem pyFormat_no_valueError (t : String) (ht : tmplOk t = true)
    (kwargs : List (String × String)) :
    pyFormat t kwargs ≠ Except.error PyErr.valueError := by
  unfold pyFormat
  unfold tmplOk at ht
  rcases hp : tmplParse t.toList with _ | toks
  · rw [hp] at ht; simp at ht
  · rcases hs : substFields kwargs toks with _ | cs <;> simp [hs]

/-- Every template value stored in the default localization table is
well formed. -/
theorem default_localization_tmplOk :
    ∀ kr ∈ default_localization, ∀ p ∈ kr.2, tmplOk p.2 = true := by
  decide

/-- Whatever language is requested, the template `get_localized_text`
selects from a default-table row is well formed. -/
theorem default_locTemplate_tmplOk (key lang : String) (row : Row)
    (hrow : default_localization.lookup key = some row) :
    tmplOk (dictGetD row lang (dictGetD row "english" "")) = true := by
  have hmem : (key, row) ∈ default_localization := lookup_mem _ hrow
  have hvals := default_localization_tmplOk _ hmem
  rcases dictGetD_mem_or_default row lang (dictGetD row "english" "") with h | ⟨p, hp, h⟩
  · rw [h]
    rcases dictGetD_mem_or_default row "english" "" with h2 | ⟨p2, hp2, h2⟩
    · rw [h2]; decide
    · rw [h2]; exact hvals p2 hp2
  · rw [h]; exact hvals p hp

/-- Formatting never raises anything but `KeyError` or `ValueError`. -/
theorem pyFormat_no_attributeError (t : String) (kwargs : List (String × String)) :
    pyFormat t kwargs ≠ Except.error PyErr.attributeError := by
  unfold pyFormat
  rcases hp : tmplParse t.toList with _ | toks
  · simp
  · rcases hs : substFields kwargs toks with _ | cs <;> simp [hs]

/-! ## Claims -/

/-- C8: for every utterance with zero whitespace-separated tokens, the
language detector returns english; the zero-token case causes no fault (the
source multiplies the token count rather than dividing, and the comparison
`0 > 0 * 0.2` is false). -/
theorem C8_zero_tokens_english (text : String)
    (h : pyWords (pyLower text).toList = []) :
    detect_language text = "english" := by
  have hws : ∀ c ∈ (pyLower text).toList, c.isWhitespace = true :=
    (pyWordsAux_eq_nil _ _ h).2
  have hdev : text.toList.any isDevanagari = false := by
    rw [List.any_eq_false]
    intro c hc
    have hl : Char.toLower c ∈ (pyLower text).toList := by
      show Char.toLower c ∈ (String.mk (text.toList.map Char.toLower)).toList
      exact List.mem_map_of_mem _ hc
    have hwsc : c.isWhitespace = true := isWhitespace_toLower c (hws _ hl)
    simp [isDevanagari_of_whitespace c hwsc]
  unfold detect_language
  rw [hdev]
  simp only [Bool.false_eq_true, if_false]
  rw [h]
  simp

/-- C8 witness: the empty utterance has zero tokens and detects as english. -/
theorem C8_witness :
    pyWords (pyLower "").toList = [] ∧ detect_language "" = "english" :=
  ⟨by decide, C8_zero_tokens_english "" (by decide)⟩

/-- C5: after every conversation-context update, the just-processed turn is
the last history entry and the history never exceeds 100 entries. -/
theorem C5_history_last_entry_and_cap (ctx : Context) (intent : String)
    (crop location : Option String) (user_text response lang timestamp : String) :
    (update_conversation_context ctx intent crop location user_text response
        lang timestamp).conversation_history.getLast? =
      some { timestamp := timestamp, user_text := user_text, intent := intent,
             response := response, language := lang } ∧
    (update_conversation_context ctx intent crop location user_text response
        lang timestamp).conversation_history.length ≤ 100 := by
  unfold update_conversation_context
  set l := ctx.conversation_history with hl
  set e : HistEntry :=
    { timestamp := timestamp, user_text := user_text, intent := intent,
      response := response, language := lang } with he
  by_cases hlen : (l ++ [e]).length > 100
  · have hlen100 : 100 ≤ l.length := by
      have := hlen
      simp only [List.length_append, List.length_cons, List.length_nil] at this
      omega
    have hle : (l ++ [e]).length - 100 ≤ l.length := by
      simp only [List.length_append, List.length_cons, List.length_nil]
      omega
    simp only [hlen, if_pos]
    constructor
    · rw [List.drop_append_of_le_length hle, List.getLast?_concat]
    · rw [List.length_drop]
      omega
  · simp only [hlen, if_neg, ite_false]
    constructor
    · rw [List.getLast?_concat]
    · simp only [List.length_append, List.length_cons, List.length_nil] at *
      omega

/-- C9: an exit-phrase utterance short-circuits `process_query` to the
special exit result before any classification, leaving the conversation
context entirely unchanged. -/
theorem C9_exit_preserves_context (st : Assistant) (text timestamp : String)
    (h : exit_words.contains (pyLower text) = true) :
    process_query st text timestamp = (Except.ok "exit", st.conversation_context) := by
  have hm : pyLower text ∈ exit_words := by simpa using h
  unfold process_query
  simp [hm]

/-- C9 witness: the utterance quit is an exit phrase and leaves the initial
context unchanged. -/
theorem C9_witness :
    exit_words.contains (pyLower "quit") = true ∧
    process_query initial_assistant "quit" "t0" =
      (Except.ok "exit", initial_assistant.conversation_context) :=
  ⟨by decide, C9_exit_preserves_context initial_assistant "quit" "t0" (by decide)⟩

/-- C10: exit recognition is exact whole-utterance equality of the lowercased
text against the fixed five-word list, not substring containment: any
utterance failing that exact test runs the normal pipeline, and in
particular the utterance please quit (which merely contains quit) flows
through classification (unknown intent), gets the catch-all response, and
updates the context. -/
theorem C10_exit_match_is_exact (st : Assistant) (text timestamp : String) :
    exit_words = ["exit", "quit", "stop", "बंद", "रुको"]
    ∧ (exit_words.contains (pyLower text) = false →
        process_query st text timestamp = normal_turn st text timestamp)
    ∧ (process_query initial_assistant "please quit" "t0").1 =
        Except.ok (unknownReply "english")
    ∧ (process_query initial_assistant "please quit" "t0").2 =
        { last_crop := none, last_location := none, last_intent := some "unknown",
          conversation_history :=
            [{ timestamp := "t0", user_text := "please quit", intent := "unknown",
               response := unknownReply "english", language := "english" }] } := by
  refine ⟨rfl, ?_, by decide, by decide⟩
  intro h
  have hm : pyLower text ∉ exit_words := by simpa using h
  unfold process_query
  simp [hm]

/-- C10 witness: please quit fails the exact exit test, so `process_query`
runs the normal turn on it. -/
theorem C10_witness :
    exit_words.contains (pyLower "please quit") = false ∧
    process_query initial_assistant "please quit" "t0" =
      normal_turn initial_assistant "please quit" "t0" :=
  ⟨by decide,
   (C10_exit_match_is_exact initial_assistant "please quit" "t0").2.1 (by decide)⟩

/-- C2: when the lexicon scan finds no crop (respectively no location), the
extractor substitutes the context value for that kind (under Python
truthiness, so an empty-string context value — never produced by the
program — would not be substituted); the variety result ignores the context
entirely; and with last_crop wheat and no crop keyword the result is wheat. -/
theorem C2_context_fallback (ctx : Context) (text : String) :
    (firstMatch crop_map (pyLower text) = none → ctx.last_crop ≠ some "" →
      (extract_entities ctx text).1 = ctx.last_crop)
    ∧ (firstMatch location_map (pyLower text) = none → ctx.last_location ≠ some "" →
      (extract_entities ctx text).2.1 = ctx.last_location)
    ∧ (extract_entities ctx text).2.2 = firstMatch variety_map (pyLower text)
    ∧ (ctx.last_crop = some "wheat" → firstMatch crop_map (pyLower text) = none →
      (extract_entities ctx text).1 = some "wheat") := by
  refine ⟨?_, ?_, ?_, ?_⟩
  · intro h1 h2
    unfold extract_entities
    simp only [h1, optTruthy]
    rcases hc : ctx.last_crop with _ | s
    · simp [optTruthy]
    · have hs : (s == "") = false := by
        rcases eq_or_ne s "" with rfl | hne
        · exact absurd hc h2
        · simp [hne]
      simp [optTruthy, hs, hc]
  · intro h1 h2
    unfold extract_entities
    simp only [h1, optTruthy]
    rcases hc : ctx.last_location with _ | s
    · simp [optTruthy]
    · have hs : (s == "") = false := by
        rcases eq_or_ne s "" with rfl | hne
        · exact absurd hc h2
        · simp [hne]
      simp [optTruthy, hs, hc]
  · unfold extract_entities
    simp
  · intro h1 h2
    unfold extract_entities
    simp [h1, h2, optTruthy]

/-- C2 witness: with last_crop wheat, the utterance weather in patna (a
location, no crop keyword) extracts crop wheat. -/
theorem C2_witness :
    firstMatch crop_map (pyLower "weather in patna") = none ∧
    (extract_entities
      { last_crop := some "wheat", last_location := none, last_intent := none,
        conversation_history := [] } "weather in patna").1 = some "wheat" :=
  ⟨by decide,
   (C2_context_fallback
     { last_crop := some "wheat", last_location := none, last_intent := none,
       conversation_history := [] } "weather in patna").2.2.2 rfl (by decide)⟩

/-- C3: the rule-based classifier equals the spec-side ordered first-match
over the active language's keyword table (priority price, weather, advice,
greeting, variety, market, else unknown), and any utterance containing a
price keyword of the active language classifies as get_price — hence an
utterance with both a price and a weather keyword resolves to price. -/
theorem C3_intent_priority (lang text : String) :
    classify_intent_rule_based lang text = classifySpec lang text
    ∧ ((if lang == "hindi" then hindi_price_words else english_price_words).any
        (fun w => pyIn w (pyLower text)) = true →
      classify_intent_rule_based lang text = "get_price") := by
  constructor
  · unfold classify_intent_rule_based classifySpec specIntentTable
    by_cases h : (lang == "hindi") = true
    · simp only [h, if_true]
      rfl
    · simp only [eq_false_of_ne_true h, Bool.false_eq_true, if_false]
      rfl
  · intro hp
    unfold classify_intent_rule_based
    by_cases h : (lang == "hindi") = true
    · rw [h] at hp ⊢
      simp only [if_true] at hp ⊢
      simp [hp]
    · rw [eq_false_of_ne_true h] at hp ⊢
      simp only [Bool.false_eq_true, if_false] at hp ⊢
      simp [hp]

/-- C3 witness: an utterance containing both the price keyword rate and the
weather keyword rain classifies as get_price. -/
theorem C3_witness :
    (if "english" == "hindi" then hindi_price_words else english_price_words).any
      (fun w => pyIn w (pyLower "rate and rain")) = true ∧
    classify_intent_rule_based "english" "rate and rain" = "get_price" :=
  ⟨by decide, (C3_intent_priority "english" "rate and rain").2 (by decide)⟩

/-- C4: on every non-exit turn the response is the intent dispatch applied to
the classified intent and extracted entities, and the dispatch enforces the
preconditions: get_price needs crop and location (missing crop message when
the crop is absent, missing location message when only the location is);
get_weather and get_market_info need location; get_advice and
get_variety_info need crop; greeting and unknown have no precondition. -/
theorem C4_dispatch_preconditions (st : Assistant) (text timestamp : String)
    (hexit : exit_words.contains (pyLower text) = false) :
    (process_query st text timestamp).1 =
      turnResponse st (classify_intent_rule_based st.current_language text)
        (extract_entities st.conversation_context text).1
        (extract_entities st.conversation_context text).2.1
        (extract_entities st.conversation_context text).2.2
    ∧ (∀ intent crop location variety, intent = "get_price" →
        optTruthy crop = false →
        turnResponse st intent crop location variety =
          get_localized_text st "missing_crop" [])
    ∧ (∀ intent crop location variety, intent = "get_price" →
        optTruthy crop = true → optTruthy location = false →
        turnResponse st intent crop location variety =
          get_localized_text st "missing_location" [])
    ∧ (∀ intent crop location variety,
        (intent = "get_weather" ∨ intent = "get_market_info") →
        optTruthy location = false →
        turnResponse st intent crop location variety =
          get_localized_text st "missing_location" [])
    ∧ (∀ intent crop location variety,
        (intent = "get_advice" ∨ intent = "get_variety_info") →
        optTruthy crop = false →
        turnResponse st intent crop location variety =
          get_localized_text st "missing_crop" [])
    ∧ (∀ crop location variety,
        turnResponse st "greeting" crop location variety =
          get_localized_text st "greeting" [])
    ∧ (∀ crop location variety,
        turnResponse st "unknown" crop location variety =
          Except.ok (unknownReply st.current_language)) := by
  have hm : pyLower text ∉ exit_words := by simpa using hexit
  refine ⟨?_, ?_, ?_, ?_, ?_, ?_, ?_⟩
  · unfold process_query normal_turn
    simp only [hm, ite_false, if_neg, List.elem_eq_mem]
    rcases turnResponse st (classify_intent_rule_based st.current_language text)
        (extract_entities st.conversation_context text).1
        (extract_entities st.conversation_context text).2.1
        (extract_entities st.conversation_context text).2.2 with e | r
    all_goals simp_all
  · intro intent crop location variety hi hc
    subst hi
    unfold turnResponse
    simp [hc]
  · intro intent crop location variety hi hc hl
    subst hi
    unfold turnResponse
    simp [hc, hl]
  · intro intent crop location variety hi hl
    rcases hi with rfl | rfl <;> (unfold turnResponse; simp [hl])
  · intro intent crop location variety hi hc
    rcases hi with rfl | rfl <;> (unfold turnResponse; simp [hc])
  · intro crop location variety
    unfold turnResponse
    simp
  · intro crop location variety
    unfold turnResponse
    simp

/-- C4 witness: the utterance market rate (price intent, no crop, no
location) produces the localized missing-crop message. -/
theorem C4_witness :
    exit_words.contains (pyLower "market rate") = false ∧
    (process_query initial_assistant "market rate" "t0").1 =
      get_localized_text initial_assistant "missing_crop" [] := by
  have h := C4_dispatch_preconditions initial_assistant "market rate" "t0" (by decide)
  refine ⟨by decide, ?_⟩
  rw [h.1]
  exact h.2.1 _ _ _ _ (by decide) (by decide)

/-- C6: the price lookup filters by commodity, location and variety; an
empty filter result is the not-found sentinel; if every remaining record has
a parsable day-month-year date the lookup returns a record of maximal date;
if any date fails to parse the sort is abandoned and the first record in
table order is returned; and for exactly two remaining records that differ
in date, the later-dated one is returned. -/
theorem C6_price_lookup_latest_date (priceData : List Row) (crop : String)
    (location variety : Option String) :
    (mandiMatching priceData crop location variety = [] →
      get_crop_price_from_mandi priceData crop location variety = none)
    ∧ (mandiMatching priceData crop location variety ≠ [] →
        (mandiMatching priceData crop location variety).all hasDate = false →
      get_crop_price_from_mandi priceData crop location variety =
        (mandiMatching priceData crop location variety).head?)
    ∧ ((mandiMatching priceData crop location variety).all hasDate = true →
        mandiMatching priceData crop location variety ≠ [] →
      ∃ r₀, get_crop_price_from_mandi priceData crop location variety = some r₀
        ∧ r₀ ∈ mandiMatching priceData crop location variety
        ∧ ∀ r ∈ mandiMatching priceData crop location variety,
            dateVal r ≤ dateVal r₀)
    ∧ (∀ r₁ r₂, mandiMatching priceData crop location variety = [r₁, r₂] →
        hasDate r₁ = true → hasDate r₂ = true → dateVal r₁ < dateVal r₂ →
      get_crop_price_from_mandi priceData crop location variety = some r₂) := by
  have hmax : (mandiMatching priceData crop location variety).all hasDate = true →
      mandiMatching priceData crop location variety ≠ [] →
      ∃ r₀, get_crop_price_from_mandi priceData crop location variety = some r₀
        ∧ r₀ ∈ mandiMatching priceData crop location variety
        ∧ ∀ r ∈ mandiMatching priceData crop location variety,
            dateVal r ≤ dateVal r₀ := by
    intro hall hne
    obtain ⟨r₀, hhead, hmem, hmax⟩ :=
      mergeSort_head_max (mandiMatching priceData crop location variety) hne
    refine ⟨r₀, ?_, hmem, hmax⟩
    unfold get_crop_price_from_mandi
    rw [if_neg (by simpa [List.isEmpty_iff] using hne), hall]
    simpa [dateDesc] using hhead
  refine ⟨?_, ?_, hmax, ?_⟩
  · intro h
    unfold get_crop_price_from_mandi
    rw [h]
    simp
  · intro hne hall
    unfold get_crop_price_from_mandi
    rw [if_neg (by simpa [List.isEmpty_iff] using hne), hall]
    simp
  · intro r₁ r₂ heq h1 h2 hlt
    have hall : (mandiMatching priceData crop location variety).all hasDate = true := by
      rw [heq]
      simp [h1, h2]
    have hne : mandiMatching priceData crop location variety ≠ [] := by
      rw [heq]; simp
    obtain ⟨r₀, hres, hmem, hmx⟩ := hmax hall hne
    rw [heq] at hmem hmx
    have h2' : dateVal r₂ ≤ dateVal r₀ := hmx r₂ (by simp)
    rcases List.mem_pair.mp hmem with rfl | rfl
    · omega
    · exact hres

/-- C6 witness: with two tomato records for the same location differing only
by date, the lookup returns the later-dated record. -/
theorem C6_witness :
    mandiMatching
        [mandiRow "Andhra Pradesh" "Chittor" "Punganur" "Tomato" "Hybrid" "FAQ"
           "10-09-2025" "1000" "1400" "1200",
         mandiRow "Andhra Pradesh" "Chittor" "Punganur" "Tomato" "Hybrid" "FAQ"
           "11-09-2025" "1100" "1500" "1300"]
        "tomato" (some "chittor") none =
      [mandiRow "Andhra Pradesh" "Chittor" "Punganur" "Tomato" "Hybrid" "FAQ"
         "10-09-2025" "1000" "1400" "1200",
       mandiRow "Andhra Pradesh" "Chittor" "Punganur" "Tomato" "Hybrid" "FAQ"
         "11-09-2025" "1100" "1500" "1300"] ∧
    get_crop_price_from_mandi
        [mandiRow "Andhra Pradesh" "Chittor" "Punganur" "Tomato" "Hybrid" "FAQ"
           "10-09-2025" "1000" "1400" "1200",
         mandiRow "Andhra Pradesh" "Chittor" "Punganur" "Tomato" "Hybrid" "FAQ"
           "11-09-2025" "1100" "1500" "1300"]
        "tomato" (some "chittor") none =
      some (mandiRow "Andhra Pradesh" "Chittor" "Punganur" "Tomato" "Hybrid" "FAQ"
        "11-09-2025" "1100" "1500" "1300") :=
  ⟨by decide,
   (C6_price_lookup_latest_date
      [mandiRow "Andhra Pradesh" "Chittor" "Punganur" "Tomato" "Hybrid" "FAQ"
         "10-09-2025" "1000" "1400" "1200",
       mandiRow "Andhra Pradesh" "Chittor" "Punganur" "Tomato" "Hybrid" "FAQ"
         "11-09-2025" "1100" "1500" "1300"]
      "tomato" (some "chittor") none).2.2.2
     (mandiRow "Andhra Pradesh" "Chittor" "Punganur" "Tomato" "Hybrid" "FAQ"
        "10-09-2025" "1000" "1400" "1200")
     (mandiRow "Andhra Pradesh" "Chittor" "Punganur" "Tomato" "Hybrid" "FAQ"
        "11-09-2025" "1100" "1500" "1300")
     (by decide) (by decide) (by decide) (by decide)⟩

/-- C7: against the default localization table, localized-text resolution
always yields some string whatever the key, requested language and keyword
arguments are; a missing key resolves to the bare key; an entry lacking the
requested language falls back to its English template; and a template
referencing a placeholder that was not supplied has its `KeyError` caught
and is returned unformatted. -/
theorem C7_localization_never_fails (lang key : String)
    (kwargs : List (String × String)) :
    (∃ s, get_localized_text { initial_assistant with current_language := lang }
        key kwargs = Except.ok s)
    ∧ (default_localization.lookup key = none →
        get_localized_text { initial_assistant with current_language := lang }
          key kwargs = Except.ok key)
    ∧ (∀ row, default_localization.lookup key = some row → row.lookup lang = none →
        locTemplate { initial_assistant with current_language := lang } key =
          some (dictGetD row "english" ""))
    ∧ (∀ t, locTemplate { initial_assistant with current_language := lang } key =
          some t →
        pyFormat t kwargs = Except.error PyErr.keyError →
        get_localized_text { initial_assistant with current_language := lang }
          key kwargs = Except.ok t) := by
  have hloc : ({ initial_assistant with current_language := lang } :
      Assistant).localization_data = default_localization := rfl
  refine ⟨?_, ?_, ?_, ?_⟩
  · rcases hT : locTemplate { initial_assistant with current_language := lang } key
      with _ | t
    · exact ⟨key, by unfold get_localized_text; rw [hT]⟩
    · by_cases hk : kwargs.isEmpty
      · exact ⟨t, by unfold get_localized_text; rw [hT]; simp [hk]⟩
      · have htok : tmplOk t = true := by
          unfold locTemplate at hT
          rw [hloc] at hT
          obtain ⟨row, hrow, hft⟩ := Option.map_eq_some'.mp hT
          rw [← hft]
          exact default_locTemplate_tmplOk key lang row hrow
        rcases hf : pyFormat t kwargs with e | s
        · rcases e with _ | _ | _
          · exact absurd hf (pyFormat_no_attributeError t kwargs)
          · refine ⟨t, ?_⟩
            unfold get_localized_text
            rw [hT]
            simp [hk, hf]
          · exact absurd hf (pyFormat_no_valueError t htok kwargs)
        · refine ⟨s, ?_⟩
          unfold get_localized_text
          rw [hT]
          simp [hk, hf]
  · intro h
    unfold get_localized_text locTemplate
    rw [hloc, h]
    rfl
  · intro row hrow hlang
    unfold locTemplate
    rw [hloc, hrow]
    simp only [Option.map_some]
    show some (dictGetD row lang (dictGetD row "english" "")) = _
    unfold dictGetD
    rw [hlang]
  · intro t ht hfmt
    unfold get_localized_text
    rw [ht]
    by_cases hk : kwargs.isEmpty
    · simp [hk]
    · simp [hk, hfmt]

/-- C7 witness: for the unsupported language tamil the price_not_found entry
falls back to its English template, and formatting it with an unrelated
keyword set has its missing-placeholder failure caught, returning the
template verbatim. -/
theorem C7_witness :
    default_localization.lookup "price_not_found" ≠ none ∧
    locTemplate { initial_assistant with current_language := "tamil" }
        "price_not_found" =
      some "Sorry, I don\x27t have price information for {crop} in {location}" ∧
    get_localized_text { initial_assistant with current_language := "tamil" }
        "price_not_found" [("x", "1")] =
      Except.ok "Sorry, I don\x27t have price information for {crop} in {location}" := by
  have h := C7_localization_never_fails "tamil" "price_not_found" [("x", "1")]
  have h3 := h.2.2.1
    [("key", "price_not_found"),
     ("english", "Sorry, I don\x27t have price information for {crop} in {location}"),
     ("hindi", "क्षमा करें, मेरे पास {location} में {crop} की कीमत की जानकारी नहीं है")]
    (by decide) (by decide)
  have h4 := h.2.2.2
    "Sorry, I don\x27t have price information for {crop} in {location}"
    (by rw [h3]; decide) (by decide)
  exact ⟨by decide, by rw [h3]; decide, h4⟩

/-- C1 counterexample: for the utterance price of tomato in patna with an
empty context, the extracted crop is rice, not tomato — the crop lexicon is
scanned in declared order, the rice variant list precedes tomato, and the
string rice occurs inside the word price by substring containment. -/
theorem C1_counterexample :
    (extract_entities
      { last_crop := none, last_location := none, last_intent := none,
        conversation_history := [] } "price of tomato in patna").1 = some "rice" ∧
    (some "rice" : Option String) ≠ some "tomato" :=
  ⟨by decide, by decide⟩

/-- C1 amended: the utterance price of tomato in patna with an empty context
detects as english and classifies as get_price with location patna, but the
extracted crop is rice; on the default price table the mandi lookup then
finds no rice record, falls into the legacy fallback that calls `.items()`
on the list-valued price table, and the turn raises `AttributeError` instead
of producing a tomato price response (the context is left unchanged because
the exception skips the update). -/
theorem C1_amended_price_of_tomato :
    detect_language "price of tomato in patna" = "english"
    ∧ classify_intent_rule_based "english" "price of tomato in patna" = "get_price"
    ∧ extract_entities
        { last_crop := none, last_location := none, last_intent := none,
          conversation_history := [] } "price of tomato in patna" =
        (some "rice", some "patna", none)
    ∧ process_turn initial_assistant "price of tomato in patna" "t0" =
        (Except.error PyErr.attributeError, initial_assistant) :=
  ⟨by decide, by decide, by decide, by decide⟩

end Noor
